import Mathlib

/-
Verification of the orbmem identity / entitlement / payment core.

Shallow embedding conventions:
  * Python `str` values are embedded as `List Char` (`Str`), with executable
    translations of the string library calls the code uses
    (startswith, replace, strip, lower).
  * Database tables (`api_keys`, `payments`) are lists of rows; a committed
    database state is a `DB` value.  SQL statements become pure list
    transformations.  Where the Python code runs several sessions whose
    commits interleave (regenerate_key, razorpay_webhook), the embedding
    makes the commit points explicit and is parameterised on the outcome of
    each commit.
  * External collaborators (Firebase verification, the sha256 digest, the
    Razorpay client, signature checks, the random token) are parameters of
    the embedded functions, exactly at the call boundary the code uses.
  * A database-level uniqueness violation on the payments insert (the race
    where another transaction commits the same payment id between this
    ledger check and the insert of this transaction) is a boolean parameter
    `ledgerInsertUniqueViolation` of the two payment entry points.
  * Raised exceptions become error values (`AppError`); the global handlers
    of API/server.py become `exception_response`.
  * Row columns no claim depends on (`created_at`) are omitted.
-/

deriving instance DecidableEq for Except

namespace Orbmem

/-- Python strings, embedded as character lists so that every operation is
kernel-executable. -/
abbrev Str := List Char

/-- Python `s.startswith(p)`. -/
def strBeginsWith (s p : Str) : Bool := s.take p.length == p

/-- Python `s.lower()`. -/
def strToLower (s : Str) : Str := s.map Char.toLower

/-- Fueled worker for `strReplace`; consumes at least one character of `s`
per step, so `s.length` fuel always suffices. -/
def strReplaceFuel : Nat → Str → Str → Str → Str
  | 0, s, _, _ => s
  | _ + 1, [], _, _ => []
  | fuel + 1, c :: rest, pat, repl =>
    if pat ≠ [] ∧ strBeginsWith (c :: rest) pat then
      repl ++ strReplaceFuel fuel ((c :: rest).drop pat.length) pat repl
    else
      c :: strReplaceFuel fuel rest pat repl

/-- Python `s.replace(pat, repl)`: replace every non-overlapping occurrence,
left to right (the code only calls it with a non-empty pattern). -/
def strReplace (s pat repl : Str) : Str := strReplaceFuel s.length s pat repl

/-- Python `s.strip()`. -/
def strStrip (s : Str) : Str :=
  ((s.dropWhile Char.isWhitespace).reverse.dropWhile Char.isWhitespace).reverse

/-- Python truthiness of an optional string header / field:
`None` and the empty string are falsy. -/
def pythonTruthy : Option Str → Bool
  | none => false
  | some s => !s.isEmpty

/-- Python truthiness of an optional integer (`duration_days`):
`None` and `0` are falsy. -/
def pythonTruthyInt : Option Int → Bool
  | none => false
  | some v => v != 0

-- =====================================================
-- DATA MODEL (Postgres tables)
-- =====================================================

/-- One row of the `api_keys` table (see db/api_keys.py inserts). -/
structure ApiKeyRow where
  id : Nat
  user_id : Str
  api_key_hash : Str
  is_active : Bool
  is_unlimited : Bool
  expires_at : Option Int
  plan : Str
deriving DecidableEq, Repr

/-- One row of the `payments` ledger table (see the inserts in
payment_routes.py and webhook_routes.py). -/
structure PaymentRow where
  user_id : Str
  razorpay_payment_id : Str
  order_id : Option Str
  amount : Option Int
  plan : Str
deriving DecidableEq, Repr

/-- A committed database state. -/
structure DB where
  api_keys : List ApiKeyRow
  payments : List PaymentRow
deriving DecidableEq, Repr

/-- Number of rows with `user_id = uid AND is_active = TRUE`. -/
def activeKeyCount (db : DB) (uid : Str) : Nat :=
  (db.api_keys.filter (fun r => r.user_id == uid && r.is_active)).length

-- =====================================================
-- EXCEPTIONS (orbmem.utils.exceptions) AND SERVER HANDLERS (API/server.py)
-- =====================================================

/-- The exception classes raised by the core (the exceptions module defines
plain message-carrying classes; `httpError` stands for fastapi
HTTPException with its status code). -/
inductive AppError
  | authError (message : Str)
  | databaseError (message : Str)
  | httpError (status : Nat) (detail : Str)
deriving DecidableEq, Repr

/-- The global exception handlers registered in API/server.py: the HTTP
status and the `error` field of the JSON body each exception class is
surfaced with.  AuthError is always surfaced as 401 Unauthorized. -/
def exception_response : AppError → Nat × Str
  | .authError _ => (401, "Unauthorized".data)
  | .databaseError _ => (500, "DatabaseError".data)
  | .httpError status _ => (status, "HTTP".data)

-- =====================================================
-- AUTH GATE (core/auth.py)
-- =====================================================

/-- Deployment mode flag (`cfg.api.mode`). -/
inductive Mode
  | localMode
  | cloudMode
deriving DecidableEq, Repr

/-- The decoded Firebase identity assertion (external collaborator). -/
structure FirebaseUser where
  uid : Str
  email : Option Str
deriving DecidableEq, Repr

/-- The two headers validate_request reads; `none` = header absent. -/
structure AuthRequest where
  authorization : Option Str
  x_firebase_token : Option Str
deriving DecidableEq, Repr

/-- The request-scoped authorization context (the dict built by
validate_request / require_auth; fields absent from a given dict are
`none`). -/
structure AuthCtx where
  mode : Mode
  uid : Option Str
  email : Option Str
  api_key_id : Option Nat
  is_unlimited : Bool
deriving DecidableEq, Repr

/-- The local-mode context: unlimited, no tenant identity. -/
def localAuthCtx : AuthCtx :=
  { mode := .localMode, uid := none, email := none, api_key_id := none, is_unlimited := true }

/-- The cloud-mode context built on success. -/
def cloudAuthCtx (user : FirebaseUser) (record : ApiKeyRow) : AuthCtx :=
  { mode := .cloudMode, uid := some user.uid, email := user.email,
    api_key_id := some record.id, is_unlimited := record.is_unlimited }

/-- The Authorization scheme marker the code matches and strips. -/
def bearerTag : Str := "Bearer ".data

/-- The fixed key marker (the API_KEY_PREFIX constant of the source). -/
def orbyntTag : Str := "orbynt-".data

/-- Extraction of the raw API key from the Authorization header:
`api_auth.replace("Bearer ", "").strip()`. -/
def bearerKey (apiAuth : Str) : Str :=
  strStrip (strReplace apiAuth bearerTag [])

/-- core/auth.py validate_request.  Parameters at the external call
boundaries: `verifyFirebaseToken` (Firebase; `none` = verification raised),
`hashApiKey` (sha256 hexdigest), `lookupRecord` (get_api_key_record, a DB
read).  Errors are the AuthError messages raised. -/
def validate_request (mode : Mode)
    (verifyFirebaseToken : Str → Option FirebaseUser)
    (hashApiKey : Str → Str)
    (lookupRecord : Str → Option ApiKeyRow)
    (now : Int) (req : AuthRequest) : Except Str AuthCtx :=
  match mode with
  | .localMode => .ok localAuthCtx
  | .cloudMode =>
    if !(pythonTruthy req.authorization) || !(pythonTruthy req.x_firebase_token) then
      .error "Missing Authorization or X-Firebase-Token".data
    else
      let apiAuth := req.authorization.getD []
      let fbToken := req.x_firebase_token.getD []
      if !(strBeginsWith apiAuth bearerTag) then
        .error "Invalid Authorization header format".data
      else
        let raw_api_key := bearerKey apiAuth
        match verifyFirebaseToken fbToken with
        | none => .error "Invalid Firebase token".data
        | some user =>
          if !(strBeginsWith raw_api_key orbyntTag) then
            .error "Invalid API key prefix".data
          else
            match lookupRecord (hashApiKey raw_api_key) with
            | none => .error "Invalid API key".data
            | some record =>
              if record.user_id ≠ user.uid then
                .error "API key does not belong to this user".data
              else if !record.is_active then
                .error "API key is disabled".data
              else if !record.is_unlimited && record.expires_at.isSome then
                if record.expires_at.getD 0 < now then
                  .error "API key expired".data
                else
                  .ok (cloudAuthCtx user record)
              else
                .ok (cloudAuthCtx user record)

/-- API/dependencies.py require_auth: local mode bypasses auth entirely;
cloud mode delegates to validate_request and converts AuthError into
HTTPException 401. -/
def require_auth (mode : Mode)
    (verifyFirebaseToken : Str → Option FirebaseUser)
    (hashApiKey : Str → Str)
    (lookupRecord : Str → Option ApiKeyRow)
    (now : Int) (req : AuthRequest) : Except AppError AuthCtx :=
  match mode with
  | .localMode => .ok localAuthCtx
  | .cloudMode =>
    match validate_request .cloudMode verifyFirebaseToken hashApiKey lookupRecord now req with
    | .ok ctx => .ok ctx
    | .error e => .error (.httpError 401 e)

/-- Reference definition written from the words of the spec, for the
refinement claim C6 only: the ordered cloud-mode check cascade — identity
verification first, then key-format check, then key lookup, then ownership
match, then active-flag check, then expiry check skipped entirely when
`is_unlimited` — each failing check short-circuiting the rest. -/
def authChecksSpec
    (verifyFirebaseToken : Str → Option FirebaseUser)
    (hashApiKey : Str → Str)
    (lookupRecord : Str → Option ApiKeyRow)
    (now : Int) (fbToken rawKey : Str) : Except Str AuthCtx :=
  match verifyFirebaseToken fbToken with
  | none => .error "Invalid Firebase token".data
  | some user =>
    if !(strBeginsWith rawKey orbyntTag) then
      .error "Invalid API key prefix".data
    else
      match lookupRecord (hashApiKey rawKey) with
      | none => .error "Invalid API key".data
      | some record =>
        if record.user_id ≠ user.uid then
          .error "API key does not belong to this user".data
        else if !record.is_active then
          .error "API key is disabled".data
        else if record.is_unlimited then
          .ok (cloudAuthCtx user record)
        else
          match record.expires_at with
          | some e =>
            if e < now then .error "API key expired".data
            else .ok (cloudAuthCtx user record)
          | none => .ok (cloudAuthCtx user record)

-- =====================================================
-- API KEY LIFECYCLE (db/api_keys.py)
-- =====================================================

/-- db/api_keys.py generate_api_key: raw key = the fixed "orbynt-" marker
followed by the random url-safe token; stored value = sha256 of the raw
key.  The random token and the digest are external, so both are
parameters. -/
def generate_api_key (hashApiKey : Str → Str) (token : Str) : Str × Str :=
  let raw_key := orbyntTag ++ token
  (raw_key, hashApiKey raw_key)

/-- The `expires_at` value create_api_key computes: `None` unless the key is
limited and `duration_days` is truthy, in which case now + the duration
(embedded in seconds). -/
def create_api_key_expiry (is_unlimited : Bool) (duration_days : Option Int) (now : Int) : Option Int :=
  if !is_unlimited && pythonTruthyInt duration_days then
    some (now + duration_days.getD 0 * 86400)
  else
    none

/-- The row the create_api_key INSERT writes: a fresh ACTIVE key. -/
def create_api_key_row (user_id plan : Str) (is_unlimited : Bool)
    (duration_days : Option Int) (now : Int) (key_hash : Str) (newId : Nat) : ApiKeyRow :=
  { id := newId, user_id, api_key_hash := key_hash, is_active := true,
    is_unlimited, expires_at := create_api_key_expiry is_unlimited duration_days now, plan }

/-- db/api_keys.py create_api_key.  It opens its OWN session and commits the
insert itself before returning; the returned state is therefore already
committed durably, independently of any session of the caller. -/
def create_api_key (db : DB) (user_id plan : Str) (is_unlimited : Bool)
    (duration_days : Option Int) (now : Int)
    (hashApiKey : Str → Str) (token : Str) (newId : Nat) : Str × DB :=
  let (raw_key, key_hash) := generate_api_key hashApiKey token
  let row := create_api_key_row user_id plan is_unlimited duration_days now key_hash newId
  (raw_key, { db with api_keys := db.api_keys ++ [row] })

/-- db/api_keys.py get_api_key_record: first row whose hash matches. -/
def get_api_key_record (db : DB) (api_key_hash : Str) : Option ApiKeyRow :=
  db.api_keys.find? (fun r => r.api_key_hash == api_key_hash)

-- =====================================================
-- API KEY ROUTES (API/routes/api_keys_routes.py)
-- =====================================================

/-- The SELECT in create_first_key: does the tenant already own an active
key (one DB round trip, in a transaction separate from the insert that
create_api_key later commits). -/
def hasActiveKey (db : DB) (uid : Str) : Bool :=
  db.api_keys.any (fun r => r.user_id == uid && r.is_active)

/-- create_first_key (the /v1/api-keys/create route), after Firebase
verification established `uid`: reject with AuthError when an active key
exists, otherwise mint one via create_api_key (plan "test", unlimited). -/
def create_first_key (db : DB) (uid : Str)
    (hashApiKey : Str → Str) (token : Str) (newId : Nat) (now : Int) :
    Except AppError Str × DB :=
  if hasActiveKey db uid then
    (.error (.authError "API key already exists. Revoke or regenerate to create a new one.".data), db)
  else
    let (raw_key, db2) := create_api_key db uid "test".data true none now hashApiKey token newId
    (.ok raw_key, db2)

/-- regenerate_key (the /v1/api-keys/regenerate route), after require_auth
established `uid`.  The route runs the deactivating UPDATE in its own
session (uncommitted until the final commit), then calls create_api_key —
which commits the new row in a SEPARATE session of its own — and only then
commits the outer session.  `createCommitOk` is the outcome of the inner
create_api_key transaction, `outerCommitOk` of the outer commit; on any
exception the route rolls back its own session only and raises
DatabaseError. -/
def regenerate_key (db : DB) (uid : Str)
    (hashApiKey : Str → Str) (token : Str) (newId : Nat) (now : Int)
    (createCommitOk outerCommitOk : Bool) : Except AppError Str × DB :=
  let revokedIds := (db.api_keys.filter (fun r => r.user_id == uid)).map (fun r => r.id)
  if !createCommitOk then
    (.error (.databaseError "Failed to regenerate API key".data), db)
  else
    let (raw_key, dbMid) := create_api_key db uid "test".data true none now hashApiKey token newId
    if outerCommitOk then
      let revoke := fun (r : ApiKeyRow) =>
        if revokedIds.contains r.id then { r with is_active := false } else r
      (.ok raw_key, { dbMid with api_keys := dbMid.api_keys.map revoke })
    else
      (.error (.databaseError "Failed to regenerate API key".data), dbMid)

-- =====================================================
-- PAYMENT VERIFY ROUTE (API/routes/payment_routes.py)
-- =====================================================

/-- The client-supplied body of /v1/payments/verify (only ids and the
signature — the client never even supplies an amount). -/
structure VerifyPayload where
  razorpay_payment_id : Option Str
  razorpay_order_id : Option Str
  razorpay_signature : Option Str
deriving DecidableEq, Repr

/-- Authoritative order state fetched back from the payment processor. -/
structure RzpOrder where
  amount : Int
  notes_uid : Option Str
  notes_plan : Option Str
deriving DecidableEq, Repr

/-- Outcome of the verify route: an HTTP error response, the idempotent
"Payment already processed" success, or a fresh key issuance. -/
inductive VerifyResult
  | haltError (status : Nat) (detail : Str)
  | alreadyProcessed
  | issued (api_key : Str)
deriving DecidableEq, Repr

/-- verify_payment (the /v1/payments/verify route).  `signatureValid` is the
external razorpay signature check over (payment_id, order_id, signature);
`fetchOrder` the processor fetch (`none` = the fetch raised).  The whole
database transaction runs in ONE session with a single commit; any
exception inside it — including the IntegrityError of a losing duplicate
insert — is caught by the generic handler and surfaced as HTTP 500. -/
def verify_payment
    (verifyFirebaseToken : Str → Option FirebaseUser)
    (signatureValid : Str → Str → Str → Bool)
    (fetchOrder : Str → Option RzpOrder)
    (db : DB) (ledgerInsertUniqueViolation : Bool)
    (hashApiKey : Str → Str) (token : Str) (newId : Nat)
    (x_firebase_token : Str) (payload : VerifyPayload) : VerifyResult × DB :=
  match verifyFirebaseToken x_firebase_token with
  | none => (.haltError 401 "Invalid Firebase token".data, db)
  | some user =>
    let uid := user.uid
    if !(pythonTruthy payload.razorpay_payment_id) ||
       !(pythonTruthy payload.razorpay_order_id) ||
       !(pythonTruthy payload.razorpay_signature) then
      (.haltError 400 "Missing payment fields".data, db)
    else
      let payment_id := payload.razorpay_payment_id.getD []
      let order_id := payload.razorpay_order_id.getD []
      let signature := payload.razorpay_signature.getD []
      if !(signatureValid payment_id order_id signature) then
        (.haltError 400 "Invalid payment signature".data, db)
      else
        match fetchOrder order_id with
        | none => (.haltError 400 "Order fetch failed".data, db)
        | some order =>
          if order.notes_uid ≠ some uid then
            (.haltError 403 "Order/User mismatch".data, db)
          else
            let plan := strToLower (order.notes_plan.getD "paid".data)
            if db.payments.any (fun p => p.razorpay_payment_id == payment_id) then
              (.alreadyProcessed, db)
            else if ledgerInsertUniqueViolation then
              (.haltError 500 "Payment finalization failed".data, db)
            else
              let paymentRow : PaymentRow :=
                { user_id := uid, razorpay_payment_id := payment_id,
                  order_id := some order_id, amount := some order.amount, plan }
              let keysRevoked := db.api_keys.map
                (fun r => if r.user_id == uid then { r with is_active := false } else r)
              let (raw_key, key_hash) := generate_api_key hashApiKey token
              let newRow : ApiKeyRow :=
                { id := newId, user_id := uid, api_key_hash := key_hash,
                  is_active := true, is_unlimited := true, expires_at := none, plan }
              (.issued raw_key,
                { api_keys := keysRevoked ++ [newRow], payments := db.payments ++ [paymentRow] })

-- =====================================================
-- RAZORPAY WEBHOOK ROUTE (API/routes/webhook_routes.py)
-- =====================================================

/-- The fields the webhook route reads out of the parsed notification
body. -/
structure WebhookPayload where
  event : Option Str
  payment_id : Option Str
  order_id : Option Str
  amount : Option Int
  notes_uid : Option Str
  notes_plan : Option Str
deriving DecidableEq, Repr

/-- Outcome of the webhook route; `ignored`, `missingMetadata`,
`alreadyProcessed` and `success` are all HTTP 200 acknowledgements. -/
inductive WebhookResult
  | haltError (status : Nat) (detail : Str)
  | ignored
  | missingMetadata
  | alreadyProcessed
  | success
deriving DecidableEq, Repr

/-- razorpay_webhook (the /v1/webhooks/razorpay route).  `signatureValid`
is the hmac-sha256 constant-time comparison over the raw body (external);
`body = none` means the raw body was not valid JSON.  The route runs its
ledger insert and key deactivation in its own session, calls
create_api_key — which commits the new key in a SEPARATE session — then
commits; an IntegrityError from the duplicate ledger insert is caught and
acknowledged as already processed after rollback, before any key
statement has run. -/
def razorpay_webhook
    (signatureValid : Bool)
    (db : DB) (ledgerInsertUniqueViolation : Bool)
    (hashApiKey : Str → Str) (token : Str) (newId : Nat) (now : Int)
    (x_razorpay_signature : Option Str)
    (body : Option WebhookPayload) : WebhookResult × DB :=
  if !(pythonTruthy x_razorpay_signature) then
    (.haltError 400 "Missing signature".data, db)
  else if !signatureValid then
    (.haltError 401 "Invalid signature".data, db)
  else
    match body with
    | none => (.haltError 400 "Invalid JSON payload".data, db)
    | some data =>
      if data.event ≠ some "payment.captured".data ∧ data.event ≠ some "order.paid".data then
        (.ignored, db)
      else if !(pythonTruthy data.payment_id) || !(pythonTruthy data.notes_uid) then
        (.missingMetadata, db)
      else
        let payment_id := data.payment_id.getD []
        let uid := data.notes_uid.getD []
        let plan := data.notes_plan.getD "paid".data
        if db.payments.any (fun p => p.razorpay_payment_id == payment_id) then
          (.alreadyProcessed, db)
        else if ledgerInsertUniqueViolation then
          (.alreadyProcessed, db)
        else
          let paymentRow : PaymentRow :=
            { user_id := uid, razorpay_payment_id := payment_id,
              order_id := data.order_id, amount := data.amount, plan }
          let keysRevoked := db.api_keys.map
            (fun r => if r.user_id == uid then { r with is_active := false } else r)
          let (_, dbDone) := create_api_key
            { api_keys := keysRevoked, payments := db.payments ++ [paymentRow] }
            uid plan true none now hashApiKey token newId
          (.success, dbDone)

-- =====================================================
-- TENANT HANDLE (core/ocdb.py)
-- =====================================================

/-- One result of the shared vector backend search: the `user_id` entry of
its payload (absent payload or absent entry = `none`) plus the rest of the
record, abstracted as `body`. -/
structure VecResult where
  payload_user_id : Option Str
  body : Str
deriving DecidableEq, Repr

/-- OCDB.vector_add: copies the payload and overwrites its `user_id` with
the owning tenant id before handing it to the shared backend. -/
def vector_add (uid : Str) (r : VecResult) : VecResult :=
  { r with payload_user_id := some uid }

/-- OCDB.vector_search: queries the SHARED backend index and keeps only the
results whose payload user id equals the owning tenant id. -/
def vector_search (uid : Str) (backendResults : List VecResult) : List VecResult :=
  backendResults.filter (fun r => r.payload_user_id == some uid)

-- =====================================================
-- MIDDLEWARE (API/middleware.py)
-- =====================================================

/-- The forbidden query parameter names of block_query_api_keys. -/
def forbiddenQueryKeys : List Str := ["api_key".data, "apikey".data, "x-api-key".data]

/-- Outcome of an http middleware: a short-circuit response, or the value
produced by the rest of the stack (`call_next`). -/
inductive MwOutcome (α : Type)
  | blocked (status : Nat) (errorKind : Str) (message : Str)
  | handled (response : α)
deriving DecidableEq, Repr

/-- block_query_api_keys: scan the query parameter NAMES (lowercased);
any forbidden name short-circuits with a 400 response, without ever
invoking the downstream stack. -/
def block_query_api_keys {α : Type} (queryParams : List (Str × Str))
    (callNext : Unit → α) : MwOutcome α :=
  if queryParams.any (fun p => forbiddenQueryKeys.contains (strToLower p.1)) then
    .blocked 400 "InvalidRequest".data "API keys must be sent via headers only".data
  else
    .handled (callNext ())

-- =====================================================
-- CONCRETE FIXTURES (used by witnesses and closed evaluations)
-- =====================================================

/-- A concrete stand-in for the sha256 hexdigest in witnesses. -/
def hashT (s : Str) : Str := '#' :: s

/-- An active unlimited key of tenant u1. -/
def rowU1 : ApiKeyRow :=
  { id := 1, user_id := "u1".data, api_key_hash := "h1".data,
    is_active := true, is_unlimited := true, expires_at := none, plan := "test".data }

/-- A store holding exactly the one active key of tenant u1. -/
def dbU1 : DB := { api_keys := [rowU1], payments := [] }

/-- The empty store. -/
def dbEmpty : DB := { api_keys := [], payments := [] }

-- =====================================================
-- CLAIM THEOREMS
-- =====================================================

/-- C4: every result OCDB.vector_search hands back to the caller belongs to
the tenant of the handle — its recorded payload user id equals the handle
tenant id — whatever the shared backend index returned; the per-handle
post-filter makes a cross-tenant result impossible. -/
theorem c4_vector_search_tenant_isolation (uid : Str) (backendResults : List VecResult)
    (r : VecResult) (hr : r ∈ vector_search uid backendResults) :
    r.payload_user_id = some uid ∧ r ∈ backendResults := by
  unfold vector_search at hr
  have h := List.mem_filter.mp hr
  exact ⟨by simpa using h.2, h.1⟩

/-- C4 witness: on a shared-index result list holding rows of tenants u1,
u2 and an ownerless row, the u1 handle search returns the u1 row and the
theorem yields its tenant id. -/
theorem c4_witness :
    (⟨some "u1".data, "a".data⟩ : VecResult) ∈
      vector_search "u1".data
        [⟨some "u1".data, "a".data⟩, ⟨some "u2".data, "b".data⟩, ⟨none, "c".data⟩] ∧
    (⟨some "u1".data, "a".data⟩ : VecResult).payload_user_id = some "u1".data := by
  refine ⟨by decide, ?_⟩
  exact (c4_vector_search_tenant_isolation "u1".data
    [⟨some "u1".data, "a".data⟩, ⟨some "u2".data, "b".data⟩, ⟨none, "c".data⟩]
    ⟨some "u1".data, "a".data⟩ (by decide)).1

/-- C9: a request carrying a query parameter whose name (lowercased) is one
of api_key / apikey / x-api-key is answered with the fixed 400 response.
The outcome does not depend on the parameter value nor on `callNext`, so
the rejection is the same for a key that would authenticate via header,
and no downstream handler ever runs. -/
theorem c9_query_param_key_rejected {α : Type} (queryParams : List (Str × Str))
    (callNext : Unit → α)
    (h : queryParams.any (fun p => forbiddenQueryKeys.contains (strToLower p.1)) = true) :
    block_query_api_keys queryParams callNext =
      .blocked 400 "InvalidRequest".data "API keys must be sent via headers only".data := by
  unfold block_query_api_keys
  exact if_pos h

/-- C9 witness: a request presenting a would-be-valid key under the
query parameter name Api_Key is blocked with the 400 response. -/
theorem c9_witness :
    block_query_api_keys [("Api_Key".data, "orbynt-valid".data)] (fun _ => (0 : Nat)) =
      .blocked 400 "InvalidRequest".data "API keys must be sent via headers only".data :=
  c9_query_param_key_rejected [("Api_Key".data, "orbynt-valid".data)] (fun _ => (0 : Nat))
    (by decide)

/-- C8: in local mode validate_request and require_auth return the fixed
unlimited context for EVERY request — the result is a constant in the
request, so no identity or key header is read or validated — and in cloud
mode any request whose Authorization or X-Firebase-Token header is absent
(or empty, which Python treats the same) is rejected: validate_request
raises the missing-header AuthError and require_auth surfaces it as HTTP
401, the Unauthorized status. -/
theorem c8_local_bypass_cloud_requires_headers :
    (∀ vt hk lk now req,
        validate_request .localMode vt hk lk now req = .ok localAuthCtx ∧
        require_auth .localMode vt hk lk now req = .ok localAuthCtx) ∧
    (∀ vt hk lk now req,
        (pythonTruthy req.authorization = false ∨ pythonTruthy req.x_firebase_token = false) →
        require_auth .cloudMode vt hk lk now req =
          .error (.httpError 401 "Missing Authorization or X-Firebase-Token".data)) := by
  constructor
  · intro vt hk lk now req
    exact ⟨rfl, rfl⟩
  · intro vt hk lk now req h
    unfold require_auth validate_request
    rcases h with h | h <;> simp [h]

/-- C8 witness: a concrete cloud-mode request lacking the Authorization
header is rejected 401, and a concrete local-mode request with no headers
at all succeeds with the unlimited context. -/
theorem c8_witness :
    require_auth .localMode (fun _ => none) hashT (fun _ => none) 0
        ⟨none, none⟩ = .ok localAuthCtx ∧
    require_auth .cloudMode (fun _ => none) hashT (fun _ => none) 0
        ⟨none, some "t1".data⟩ =
      .error (.httpError 401 "Missing Authorization or X-Firebase-Token".data) :=
  ⟨(c8_local_bypass_cloud_requires_headers.1 (fun _ => none) hashT (fun _ => none) 0
      ⟨none, none⟩).2,
   c8_local_bypass_cloud_requires_headers.2 (fun _ => none) hashT (fun _ => none) 0
      ⟨none, some "t1".data⟩ (Or.inl (by decide))⟩

/-- C10: in cloud mode an active, owner-matching key whose expires_at is
NULL is never rejected as expired — validation succeeds whatever
is_unlimited is, because the expiry comparison is guarded on expires_at
being set — and every row create_api_key mints with is_unlimited true
carries expires_at NULL. -/
theorem c10_null_expiry_never_expired :
    (∀ vt hk lk now req a t user rec,
        req.authorization = some a → req.x_firebase_token = some t →
        a.isEmpty = false → t.isEmpty = false →
        strBeginsWith a bearerTag = true →
        vt t = some user →
        strBeginsWith (bearerKey a) orbyntTag = true →
        lk (hk (bearerKey a)) = some rec →
        rec.user_id = user.uid → rec.is_active = true → rec.expires_at = none →
        validate_request .cloudMode vt hk lk now req = .ok (cloudAuthCtx user rec)) ∧
    (∀ user_id plan duration_days now key_hash newId,
        (create_api_key_row user_id plan true duration_days now key_hash newId).expires_at
          = none) := by
  constructor
  · intro vt hk lk now req a t user rec ha ht hae hte hb hv hp hl hu hact hexp
    unfold validate_request
    simp [ha, ht, pythonTruthy, hae, hte, hb, hv, hp, hl, hu, hact, hexp]
  · intro user_id plan duration_days now key_hash newId
    simp [create_api_key_row, create_api_key_expiry]

/-- C10 witness: a concrete non-unlimited, active, owner-matching key with
NULL expires_at passes cloud validation at an arbitrary late clock, and a
concrete unlimited create_api_key row has NULL expires_at. -/
theorem c10_witness :
    validate_request .cloudMode
        (fun t => if t == "t1".data then some ⟨"u1".data, none⟩ else none)
        hashT
        (fun h => if h == hashT "orbynt-k".data then
            some { id := 7, user_id := "u1".data, api_key_hash := hashT "orbynt-k".data,
                   is_active := true, is_unlimited := false, expires_at := none,
                   plan := "paid".data }
          else none)
        1000000 ⟨some "Bearer orbynt-k".data, some "t1".data⟩ =
      .ok (cloudAuthCtx ⟨"u1".data, none⟩
            { id := 7, user_id := "u1".data, api_key_hash := hashT "orbynt-k".data,
              is_active := true, is_unlimited := false, expires_at := none,
              plan := "paid".data }) ∧
    (create_api_key_row "u1".data "test".data true none 0 "kh".data 3).expires_at = none :=
  ⟨c10_null_expiry_never_expired.1
      (fun t => if t == "t1".data then some ⟨"u1".data, none⟩ else none)
      hashT
      (fun h => if h == hashT "orbynt-k".data then
          some { id := 7, user_id := "u1".data, api_key_hash := hashT "orbynt-k".data,
                 is_active := true, is_unlimited := false, expires_at := none,
                 plan := "paid".data }
        else none)
      1000000 ⟨some "Bearer orbynt-k".data, some "t1".data⟩
      "Bearer orbynt-k".data "t1".data ⟨"u1".data, none⟩
      { id := 7, user_id := "u1".data, api_key_hash := hashT "orbynt-k".data,
        is_active := true, is_unlimited := false, expires_at := none, plan := "paid".data }
      rfl rfl (by decide) (by decide) (by decide) (by decide) (by decide) (by decide)
      (by decide) (by decide) (by decide),
   c10_null_expiry_never_expired.2 "u1".data "test".data none 0 "kh".data 3⟩

/-- C6: in cloud mode, for a request carrying both headers with the
Authorization value in Bearer form, validate_request coincides with the
spec-side ordered cascade (identity verification, then key format, key
lookup, ownership, active flag, expiry — expiry skipped entirely when
is_unlimited — first failure short-circuiting all later checks); and the
spec scenario holds: an expired non-unlimited key is rejected with the
expired AuthError (an Unauthorized-class failure) while the same record
with is_unlimited true and the same expires_at timestamp is accepted. -/
theorem c6_auth_check_order :
    (∀ vt hk lk now req a t,
        req.authorization = some a → req.x_firebase_token = some t →
        a.isEmpty = false → t.isEmpty = false →
        strBeginsWith a bearerTag = true →
        validate_request .cloudMode vt hk lk now req =
          authChecksSpec vt hk lk now t (bearerKey a)) ∧
    (∀ vt hk lk now req a t user rec e,
        req.authorization = some a → req.x_firebase_token = some t →
        a.isEmpty = false → t.isEmpty = false →
        strBeginsWith a bearerTag = true →
        vt t = some user →
        strBeginsWith (bearerKey a) orbyntTag = true →
        lk (hk (bearerKey a)) = some rec →
        rec.user_id = user.uid → rec.is_active = true →
        rec.is_unlimited = false → rec.expires_at = some e → e < now →
        validate_request .cloudMode vt hk lk now req = .error "API key expired".data) ∧
    (∀ vt hk lk now req a t user rec e,
        req.authorization = some a → req.x_firebase_token = some t →
        a.isEmpty = false → t.isEmpty = false →
        strBeginsWith a bearerTag = true →
        vt t = some user →
        strBeginsWith (bearerKey a) orbyntTag = true →
        lk (hk (bearerKey a)) = some rec →
        rec.user_id = user.uid → rec.is_active = true →
        rec.is_unlimited = true → rec.expires_at = some e →
        validate_request .cloudMode vt hk lk now req = .ok (cloudAuthCtx user rec)) := by
  refine ⟨?_, ?_, ?_⟩
  · intro vt hk lk now req a t ha ht hae hte hb
    unfold validate_request authChecksSpec
    rcases hvt : vt t with _ | user
    · simp [ha, ht, pythonTruthy, hae, hte, hb, hvt]
    · by_cases hp : strBeginsWith (bearerKey a) orbyntTag = true
      · rcases hlk : lk (hk (bearerKey a)) with _ | rec
        · simp [ha, ht, pythonTruthy, hae, hte, hb, hvt, hp, hlk]
        · by_cases hu : rec.user_id = user.uid
          · by_cases hact : rec.is_active = true
            · by_cases hunl : rec.is_unlimited = true
              · simp [ha, ht, pythonTruthy, hae, hte, hb, hvt, hp, hlk, hu, hact, hunl]
              · rcases hea : rec.expires_at with _ | e
                · simp [ha, ht, pythonTruthy, hae, hte, hb, hvt, hp, hlk, hu, hact, hunl, hea]
                · simp [ha, ht, pythonTruthy, hae, hte, hb, hvt, hp, hlk, hu, hact, hunl, hea]
            · simp [ha, ht, pythonTruthy, hae, hte, hb, hvt, hp, hlk, hu, hact]
          · simp [ha, ht, pythonTruthy, hae, hte, hb, hvt, hp, hlk, hu]
      · simp [ha, ht, pythonTruthy, hae, hte, hb, hvt, hp]
  · intro vt hk lk now req a t user rec e ha ht hae hte hb hvt hp hlk hu hact hunl hea hlt
    unfold validate_request
    simp [ha, ht, pythonTruthy, hae, hte, hb, hvt, hp, hlk, hu, hact, hunl, hea, hlt]
  · intro vt hk lk now req a t user rec e ha ht hae hte hb hvt hp hlk hu hact hunl hea
    unfold validate_request
    simp [ha, ht, pythonTruthy, hae, hte, hb, hvt, hp, hlk, hu, hact, hunl, hea]

/-- The identity oracle of the C6 witness: token t1 belongs to tenant u1. -/
def vtW : Str → Option FirebaseUser := fun t => if t == "t1".data then some ⟨"u1".data, none⟩ else none

/-- An expired (timestamp 10), non-unlimited, active key of tenant u1. -/
def recExpired : ApiKeyRow :=
  { id := 5, user_id := "u1".data, api_key_hash := hashT "orbynt-k".data,
    is_active := true, is_unlimited := false, expires_at := some 10, plan := "paid".data }

/-- The same record with is_unlimited true and the same expiry timestamp. -/
def recUnlSameExpiry : ApiKeyRow := { recExpired with is_unlimited := true }

/-- A key lookup resolving the digest of orbynt-k to the given record. -/
def lkW (rec : ApiKeyRow) : Str → Option ApiKeyRow :=
  fun h => if h == hashT "orbynt-k".data then some rec else none

/-- The request of the C6 witness: both headers present, Bearer form. -/
def reqW : AuthRequest := ⟨some "Bearer orbynt-k".data, some "t1".data⟩

/-- C6 witness: at clock 100 the concrete cloud validation agrees with the
spec cascade; the expired non-unlimited key is rejected as expired, and
the identical record with is_unlimited true is accepted. -/
theorem c6_witness :
    validate_request .cloudMode vtW hashT (lkW recExpired) 100 reqW =
      authChecksSpec vtW hashT (lkW recExpired) 100 "t1".data
        (bearerKey "Bearer orbynt-k".data) ∧
    validate_request .cloudMode vtW hashT (lkW recExpired) 100 reqW =
      .error "API key expired".data ∧
    validate_request .cloudMode vtW hashT (lkW recUnlSameExpiry) 100 reqW =
      .ok (cloudAuthCtx ⟨"u1".data, none⟩ recUnlSameExpiry) :=
  ⟨c6_auth_check_order.1 vtW hashT (lkW recExpired) 100 reqW
      "Bearer orbynt-k".data "t1".data rfl rfl (by decide) (by decide) (by decide),
   c6_auth_check_order.2.1 vtW hashT (lkW recExpired) 100 reqW
      "Bearer orbynt-k".data "t1".data ⟨"u1".data, none⟩ recExpired 10
      rfl rfl (by decide) (by decide) (by decide) (by decide) (by decide) (by decide)
      (by decide) (by decide) (by decide) (by decide) (by decide),
   c6_auth_check_order.2.2 vtW hashT (lkW recUnlSameExpiry) 100 reqW
      "Bearer orbynt-k".data "t1".data ⟨"u1".data, none⟩ recUnlSameExpiry 10
      rfl rfl (by decide) (by decide) (by decide) (by decide) (by decide) (by decide)
      (by decide) (by decide) (by decide) (by decide)⟩

/-- C7 counterexample: for tenant u1, which already owns an active key,
create_first_key raises AuthError, and the only handler registered for it
(API/server.py) surfaces AuthError as status 401 with error kind
"Unauthorized" — the very classification used for authentication failures.
No Conflict kind or 409 status exists anywhere in the code, so the
duplicate-create rejection is NOT distinct from Unauthorized, refuting the
claim; the no-new-key half does hold (the store is unchanged). -/
theorem c7_counterexample :
    create_first_key dbU1 "u1".data hashT "tokB".data 2 0 =
      (.error (.authError
        "API key already exists. Revoke or regenerate to create a new one.".data), dbU1) ∧
    exception_response (.authError
        "API key already exists. Revoke or regenerate to create a new one.".data) =
      (401, "Unauthorized".data) ∧
    (401, "Unauthorized".data) ≠ ((409 : Nat), "Conflict".data) := by
  refine ⟨by decide, by decide, by decide⟩

/-- C7 amended: create-first for a tenant that already has an active key
fails with AuthError — surfaced by the server as 401 Unauthorized, not as
a distinct Conflict kind — and persists no new key; for a tenant with no
active key it persists exactly one new active key (storing only the
digest of the secret) and returns the raw secret. -/
theorem c7_amended_create_first (db : DB) (uid : Str)
    (hashApiKey : Str → Str) (token : Str) (newId : Nat) (now : Int) :
    (hasActiveKey db uid = true →
      create_first_key db uid hashApiKey token newId now =
        (.error (.authError
          "API key already exists. Revoke or regenerate to create a new one.".data), db)) ∧
    (hasActiveKey db uid = false →
      create_first_key db uid hashApiKey token newId now =
        (.ok (orbyntTag ++ token),
         { db with api_keys := db.api_keys ++
            [create_api_key_row uid "test".data true none now
              (hashApiKey (orbyntTag ++ token)) newId] })) := by
  constructor
  · intro h
    unfold create_first_key
    simp [h]
  · intro h
    unfold create_first_key create_api_key generate_api_key
    simp [h]

/-- C7 witness: the amended claim applied to tenant u1 (which has an active
key, so creation is refused with AuthError and the store kept) and to the
empty store (where creation succeeds). -/
theorem c7_witness :
    create_first_key dbU1 "u1".data hashT "tokB".data 2 0 =
      (.error (.authError
        "API key already exists. Revoke or regenerate to create a new one.".data), dbU1) ∧
    create_first_key dbEmpty "u1".data hashT "tokA".data 1 0 =
      (.ok (orbyntTag ++ "tokA".data),
       { dbEmpty with api_keys := dbEmpty.api_keys ++
          [create_api_key_row "u1".data "test".data true none 0
            (hashT (orbyntTag ++ "tokA".data)) 1] }) :=
  ⟨(c7_amended_create_first dbU1 "u1".data hashT "tokB".data 2 0).1 (by decide),
   (c7_amended_create_first dbEmpty "u1".data hashT "tokA".data 1 0).2 (by decide)⟩

/-- C2: the code CAN violate the single-active-key invariant, so the claim
fails on the code and the spec is the clear intent (the source itself
calls duplicates a state to revoke): two concurrent create-first calls for
tenant u1 interleave so that both run their active-key SELECT against the
initial committed store — the first conjuncts show both guards pass, so
both calls reach create_api_key, whose insert commits in a session of its
own — and the final committed store holds TWO rows with user_id = u1 and
is_active TRUE. -/
theorem c2_concurrent_create_first_two_active :
    hasActiveKey dbEmpty "u1".data = false ∧
    activeKeyCount dbEmpty "u1".data = 0 ∧
    activeKeyCount
      ((create_api_key
          ((create_api_key dbEmpty "u1".data "test".data true none 0 hashT "tokA".data 1).2)
          "u1".data "test".data true none 0 hashT "tokB".data 2).2)
      "u1".data = 2 := by
  refine ⟨by decide, by decide, by decide⟩

/-- C3: regenerate is NOT a single atomic unit.  The route deactivates in
its own session but mints the new key through create_api_key, which
commits in a SEPARATE session; when the final commit of the route fails
after that inner commit, the route raises DatabaseError yet the new key
stays persisted and active while the old key was never deactivated: the
tenant ends with TWO active keys, not with its prior state. -/
theorem c3_regenerate_ghost_key :
    (regenerate_key dbU1 "u1".data hashT "tokB".data 2 0 true false).1 =
      .error (.databaseError "Failed to regenerate API key".data) ∧
    activeKeyCount (regenerate_key dbU1 "u1".data hashT "tokB".data 2 0 true false).2
      "u1".data = 2 ∧
    (regenerate_key dbU1 "u1".data hashT "tokB".data 2 0 true false).2 ≠ dbU1 := by
  refine ⟨by decide, by decide, by decide⟩

/-- A signature check that accepts (the race scenarios concern payments
whose signatures are genuine). -/
def svTrue : Str → Str → Str → Bool := fun _ _ _ => true

/-- The processor state of the payment fixtures: order order_1 belongs to
tenant u1, plan monthly, authoritative amount 49900. -/
def foW : Str → Option RzpOrder :=
  fun oid => if oid == "order_1".data then
    some ⟨49900, some "u1".data, some "monthly".data⟩
  else none

/-- The client verify body for payment pay_1 (ids and signature only — the
client path cannot even supply an amount). -/
def payloadV1 : VerifyPayload := ⟨some "pay_1".data, some "order_1".data, some "sig".data⟩

/-- The webhook notification for payment pay_1, reporting amount 999. -/
def payloadW1 : WebhookPayload :=
  ⟨some "payment.captured".data, some "pay_1".data, some "order_1".data,
   some 999, some "u1".data, some "monthly".data⟩

/-- A store in which payment pay_1 is already recorded in the ledger. -/
def dbP1 : DB :=
  { api_keys := [rowU1],
    payments := [⟨"u1".data, "pay_1".data, some "order_1".data, some 49900, "monthly".data⟩] }

/-- C1: the duplicate that arrives AFTER pay_1 is committed to the ledger is
indeed answered "already processed" by both entry points with no state
change (first two conjuncts).  But the duplicate that loses the insert
race diverges from the claim: when the uniqueness violation fires on the
ledger insert, the webhook path catches IntegrityError and acknowledges
already-processed, while the client verify path has no such handler — its
generic handler turns the violation into a fatal HTTP 500, not the
non-error already-processed result the claim requires (no key mutation and
no secret leak happen in either path). -/
theorem c1_race_loser_verify_500 :
    verify_payment vtW svTrue foW dbP1 false hashT "tokA".data 9 "t1".data payloadV1 =
      (.alreadyProcessed, dbP1) ∧
    razorpay_webhook true dbP1 false hashT "tokA".data 9 0 (some "sig".data)
        (some payloadW1) = (.alreadyProcessed, dbP1) ∧
    verify_payment vtW svTrue foW dbEmpty true hashT "tokA".data 9 "t1".data payloadV1 =
      (.haltError 500 "Payment finalization failed".data, dbEmpty) ∧
    razorpay_webhook true dbEmpty true hashT "tokA".data 9 0 (some "sig".data)
        (some payloadW1) = (.alreadyProcessed, dbEmpty) ∧
    VerifyResult.haltError 500 "Payment finalization failed".data ≠
      VerifyResult.alreadyProcessed := by
  refine ⟨by decide, by decide, by decide, by decide, by decide⟩

/-- C5 counterexample: the webhook route performs NO fetch from the payment
processor (the embedded function has no processor parameter because the
route makes no such call); on a signature-valid notification reporting
amount 999 for order order_1 it records 999 in the ledger, although the
authoritative processor order amount is 49900 — refuting the claim that
both entry points re-fetch authoritative state and never use
notification-supplied amount fields. -/
theorem c5_counterexample :
    (razorpay_webhook true dbEmpty false hashT "tokA".data 9 0 (some "sig".data)
        (some payloadW1)).2.payments.map (fun p => p.amount) = [some 999] ∧
    foW "order_1".data = some ⟨49900, some "u1".data, some "monthly".data⟩ ∧
    some (999 : Int) ≠ some (49900 : Int) := by
  refine ⟨by decide, by decide, by decide⟩

/-- C5 amended: only the synchronous verify path re-fetches the order from
the payment processor and records the fetched amount and plan (the client
body cannot even carry an amount); the webhook path records the amount and
plan taken from the signature-verified notification payload itself,
without consulting the processor. -/
theorem c5_amended_amount_sources :
    (∀ vt sv fo db hk token newId t p user order pid oid sig,
        vt t = some user →
        p.razorpay_payment_id = some pid → pid.isEmpty = false →
        p.razorpay_order_id = some oid → oid.isEmpty = false →
        p.razorpay_signature = some sig → sig.isEmpty = false →
        sv pid oid sig = true →
        fo oid = some order →
        order.notes_uid = some user.uid →
        db.payments.any (fun q => q.razorpay_payment_id == pid) = false →
        (verify_payment vt sv fo db false hk token newId t p).2.payments =
          db.payments ++
            [{ user_id := user.uid, razorpay_payment_id := pid, order_id := some oid,
               amount := some order.amount,
               plan := strToLower (order.notes_plan.getD "paid".data) }]) ∧
    (∀ db hk token newId now sig data pid uid,
        (data.event = some "payment.captured".data ∨ data.event = some "order.paid".data) →
        data.payment_id = some pid → pid.isEmpty = false →
        data.notes_uid = some uid → uid.isEmpty = false →
        sig.isEmpty = false →
        db.payments.any (fun q => q.razorpay_payment_id == pid) = false →
        (razorpay_webhook true db false hk token newId now (some sig)
            (some data)).2.payments =
          db.payments ++
            [{ user_id := uid, razorpay_payment_id := pid, order_id := data.order_id,
               amount := data.amount, plan := data.notes_plan.getD "paid".data }]) := by
  constructor
  · intro vt sv fo db hk token newId t p user order pid oid sig
      hv hp1 hp1e hp2 hp2e hp3 hp3e hsv hfo huid hdup
    unfold verify_payment
    simp [hv, hp1, hp2, hp3, pythonTruthy, hp1e, hp2e, hp3e, hsv, hfo, huid, hdup]
  · intro db hk token newId now sig data pid uid hev hp hpe hu hue hse hdup
    unfold razorpay_webhook
    rcases hev with hev | hev <;>
      simp [hev, hp, hu, pythonTruthy, hpe, hue, hse, hdup, create_api_key, generate_api_key]

/-- C5 witness: the amended claim at the concrete fixtures — the verify path
records the fetched authoritative amount 49900 (lowercased plan monthly),
the webhook path records the notification amount 999. -/
theorem c5_witness :
    (verify_payment vtW svTrue foW dbEmpty false hashT "tokA".data 9 "t1".data
        payloadV1).2.payments =
      dbEmpty.payments ++
        [{ user_id := ("u1".data : Str), razorpay_payment_id := "pay_1".data,
           order_id := some "order_1".data, amount := some 49900,
           plan := strToLower ((some "monthly".data).getD "paid".data) }] ∧
    (razorpay_webhook true dbEmpty false hashT "tokA".data 9 0 (some "sig".data)
        (some payloadW1)).2.payments =
      dbEmpty.payments ++
        [{ user_id := ("u1".data : Str), razorpay_payment_id := "pay_1".data,
           order_id := payloadW1.order_id, amount := payloadW1.amount,
           plan := payloadW1.notes_plan.getD "paid".data }] :=
  ⟨c5_amended_amount_sources.1 vtW svTrue foW dbEmpty hashT "tokA".data 9 "t1".data
      payloadV1 ⟨"u1".data, none⟩ ⟨49900, some "u1".data, some "monthly".data⟩
      "pay_1".data "order_1".data "sig".data
      (by decide) rfl (by decide) rfl (by decide) rfl (by decide) rfl (by decide)
      (by decide) (by decide),
   c5_amended_amount_sources.2 dbEmpty hashT "tokA".data 9 0 "sig".data payloadW1
      "pay_1".data "u1".data (Or.inl rfl) rfl (by decide) rfl (by decide) (by decide)
      (by decide)⟩

end Orbmem
